import Mathlib

/-!
Hysteria relay: the callbacks of `proxyServer` (cmd/proxy_server.go).

`proxyServer` builds a `quic.Config` from the loaded configuration and hands the
core five closures.  This development embeds the default resolution of the
`quic.Config` and the four closures that log and dial, as functions over an
explicit `World` that records, in order, every `log.Printf` line and every
`net.Dial` call.

Conventions of the embedding:

* a `net.Addr` is represented by the text its `String()` method returns;
* a non-nil `error` is represented by the text its `Error()` method returns,
  a possibly-nil `error` by an `Option`;
* `uint64` values are natural numbers (only `/` is applied to them, which
  cannot overflow), `int` values are integers;
* a `log.Printf` line is the formatted message; the timestamp prefix the
  standard logger puts in front of it is not part of the model;
* `net.Dial` belongs to the standard library, so it is an argument of the embedding:
  a `Dialer` says, for a network and an address, what the call returns.  The
  call is taken to return (the operating system bounds the waits for the
  resolver and for the connection); how long it takes is not modelled, the
  embedding has no clock.
-/

namespace Hysteria

/-! ## Data model -/

/-- A non-nil `net.Addr`, seen through its `String()` method. -/
structure NetAddr where
  String : String
  deriving DecidableEq, Repr

/-- A non-nil `error`, seen through its `Error()` method. -/
structure GoError where
  Error : String
  deriving DecidableEq, Repr

/-- The handle of an open socket (`net.Conn`, returned as `io.ReadWriteCloser`). -/
structure NetConn where
  fd : Nat
  deriving DecidableEq, Repr

/-- Modelled from the spec: `core.AuthResult` is declared in package `core`,
which is absent; the spec gives the admission decision as `Allow | Deny`.
`AuthSuccess` is the constant the source returns. -/
inductive AuthResult
  | AuthSuccess
  | AuthDenied
  deriving DecidableEq, Repr

/-- Modelled from the spec: `core.ConnectResult` is declared in package `core`,
which is absent; `ConnSuccess` and `ConnFailed` are the two constants the
source returns. -/
inductive ConnectResult
  | ConnSuccess
  | ConnFailed
  deriving DecidableEq, Repr

/-- What a returning `net.Dial` call yields: a connection with a nil error, or
a non-nil error with a nil connection. -/
inductive DialReturn
  | connected (conn : NetConn)
  | failed (err : GoError)
  deriving DecidableEq, Repr

/-- The behaviour of `net.Dial`: what the call returns on (network, address). -/
abbrev Dialer := String → String → DialReturn

/-- An observable action of a callback. -/
inductive Effect
  | logPrintf (line : String)
  | netDial (network : String) (address : String)
  deriving DecidableEq, Repr

/-- The world a callback runs in: the actions performed so far, oldest first. -/
structure World where
  trace : List Effect
  deriving DecidableEq, Repr

/-- The lines written to the log so far, oldest first. -/
def World.log (w : World) : List String :=
  w.trace.filterMap fun e =>
    match e with
    | Effect.logPrintf line => some line
    | Effect.netDial _ _ => none

/-- The `net.Dial` calls made so far, oldest first. -/
def World.dialCalls (w : World) : List (String × String) :=
  w.trace.filterMap fun e =>
    match e with
    | Effect.logPrintf _ => none
    | Effect.netDial network address => some (network, address)

/-- A runtime panic of the Go program. -/
inductive GoPanic
  | nilDereference
  deriving DecidableEq, Repr

/-! ## Primitives -/

/-- A `log.Printf` call whose formatted message is `line`. -/
def logPrintf (line : String) (w : World) : World :=
  { trace := w.trace ++ [Effect.logPrintf line] }

/-- A `net.Dial(network, address)` call: it is recorded, and returns what the
dialer says. -/
def netDial (dial : Dialer) (network address : String) (w : World) :
    World × DialReturn :=
  ({ trace := w.trace ++ [Effect.netDial network address] }, dial network address)

/-! ## `quic.Config` and its defaults (source lines 35-49) -/

/-- The fields of `proxyServerConfig` that `proxyServer` reads. -/
structure proxyServerConfig where
  ListenAddr : String
  CertFile : String
  KeyFile : String
  UpMbps : Nat
  DownMbps : Nat
  ReceiveWindowConn : Nat
  ReceiveWindowClient : Nat
  MaxConnClient : Int
  deriving DecidableEq, Repr

/-- The fields of `quic.Config` that `proxyServer` sets. -/
structure QuicConfig where
  MaxReceiveStreamFlowControlWindow : Nat
  MaxReceiveConnectionFlowControlWindow : Nat
  MaxIncomingStreams : Int
  KeepAlive : Bool
  deriving DecidableEq, Repr

/-- The three `Default...` constants; they are declared in another file of the
package, so they are arguments here. -/
structure Defaults where
  DefaultMaxReceiveStreamFlowControlWindow : Nat
  DefaultMaxReceiveConnectionFlowControlWindow : Nat
  DefaultMaxIncomingStreams : Int
  deriving DecidableEq, Repr

/-- The composite literal of lines 35-40. -/
def initQuicConfig (config : proxyServerConfig) : QuicConfig :=
  { MaxReceiveStreamFlowControlWindow := config.ReceiveWindowConn
    MaxReceiveConnectionFlowControlWindow := config.ReceiveWindowClient
    MaxIncomingStreams := config.MaxConnClient
    KeepAlive := true }

/-- The `if` of lines 41-43. -/
def resolveStreamWindow (d : Defaults) (q : QuicConfig) : QuicConfig :=
  if q.MaxReceiveStreamFlowControlWindow = 0 then
    { q with MaxReceiveStreamFlowControlWindow := d.DefaultMaxReceiveStreamFlowControlWindow }
  else q

/-- The `if` of lines 44-46. -/
def resolveConnectionWindow (d : Defaults) (q : QuicConfig) : QuicConfig :=
  if q.MaxReceiveConnectionFlowControlWindow = 0 then
    { q with
      MaxReceiveConnectionFlowControlWindow := d.DefaultMaxReceiveConnectionFlowControlWindow }
  else q

/-- The `if` of lines 47-49. -/
def resolveIncomingStreams (d : Defaults) (q : QuicConfig) : QuicConfig :=
  if q.MaxIncomingStreams = 0 then
    { q with MaxIncomingStreams := d.DefaultMaxIncomingStreams }
  else q

/-- The three `if` statements of lines 41-49, in order. -/
def resolveDefaults (d : Defaults) (q : QuicConfig) : QuicConfig :=
  resolveIncomingStreams d (resolveConnectionWindow d (resolveStreamWindow d q))

/-- The `quic.Config` passed to `core.NewServer`. -/
def quicConfig (d : Defaults) (config : proxyServerConfig) : QuicConfig :=
  resolveDefaults d (initQuicConfig config)

/-! ## The callbacks passed to `core.NewServer` (source lines 56-92) -/

/-- The admission callback (lines 56-61).  `mbpsToBps` is a constant declared
in another file of the package, so it is an argument. -/
def admissionCallback (mbpsToBps : Nat) (addr : NetAddr) (username : String)
    (_password : String) (sSend sRecv : Nat) (w : World) :
    World × (AuthResult × String) :=
  let w1 := logPrintf
    (addr.String ++ " (" ++ username ++ ") connected, negotiated speed (Mbps): Up "
      ++ toString (sSend / mbpsToBps) ++ " / Down " ++ toString (sRecv / mbpsToBps) ++ "\n") w
  (w1, (AuthResult.AuthSuccess, ""))

/-- The disconnect callback (lines 62-64).  `err.Error()` is evaluated before
`log.Printf` is entered, so a nil `err` panics with nothing logged. -/
def disconnectCallback (addr : NetAddr) (username : String) (err : Option GoError)
    (w : World) : World × Except GoPanic Unit :=
  match err with
  | none => (w, Except.error GoPanic.nilDereference)
  | some e =>
    (logPrintf (addr.String ++ " (" ++ username ++ ") disconnected: " ++ e.Error ++ "\n") w,
      Except.ok ())

/-- The connect callback (lines 65-85), with the three values it returns. -/
def connectCallback (dial : Dialer) (addr : NetAddr) (username : String) (_id : Int)
    (packet : Bool) (reqAddr : String) (w : World) :
    World × (ConnectResult × String × Option NetConn) :=
  if !packet then
    -- TCP
    let w1 := logPrintf (addr.String ++ " (" ++ username ++ "): [TCP] " ++ reqAddr ++ "\n") w
    match netDial dial "tcp" reqAddr w1 with
    | (w2, DialReturn.failed err) =>
      let w3 := logPrintf ("TCP error " ++ reqAddr ++ ": " ++ err.Error ++ "\n") w2
      (w3, (ConnectResult.ConnFailed, err.Error, none))
    | (w2, DialReturn.connected conn) =>
      (w2, (ConnectResult.ConnSuccess, "", some conn))
  else
    -- UDP
    let w1 := logPrintf (addr.String ++ " (" ++ username ++ "): [UDP] " ++ reqAddr ++ "\n") w
    match netDial dial "udp" reqAddr w1 with
    | (w2, DialReturn.failed err) =>
      let w3 := logPrintf ("UDP error " ++ reqAddr ++ ": " ++ err.Error ++ "\n") w2
      (w3, (ConnectResult.ConnFailed, err.Error, none))
    | (w2, DialReturn.connected conn) =>
      (w2, (ConnectResult.ConnSuccess, "", some conn))

/-- The request-closed callback (lines 86-92).  `err.Error()` is evaluated
before `log.Printf` is entered, so a nil `err` panics with nothing logged. -/
def requestClosedCallback (addr : NetAddr) (username : String) (_id : Int)
    (packet : Bool) (reqAddr : String) (err : Option GoError) (w : World) :
    World × Except GoPanic Unit :=
  if !packet then
    match err with
    | none => (w, Except.error GoPanic.nilDereference)
    | some e =>
      (logPrintf (addr.String ++ " (" ++ username ++ "): closed [TCP] " ++ reqAddr ++ ": "
          ++ e.Error ++ "\n") w, Except.ok ())
  else
    match err with
    | none => (w, Except.error GoPanic.nilDereference)
    | some e =>
      (logPrintf (addr.String ++ " (" ++ username ++ "): closed [UDP] " ++ reqAddr ++ ": "
          ++ e.Error ++ "\n") w, Except.ok ())

/-! ## Vocabulary of the statements -/

/-- The network name that goes with a kind flag. -/
def networkOf (packet : Bool) : String := if packet then "udp" else "tcp"

/-- The kind label that goes with a kind flag. -/
def kindLabel (packet : Bool) : String := if packet then "[UDP]" else "[TCP]"

/-- The prefix of the error line that goes with a kind flag. -/
def errorLabel (packet : Bool) : String := if packet then "UDP error " else "TCP error "

/-- The text `part` occurs in `line`. -/
def Carries (line part : String) : Prop := List.IsInfix part.data line.data

/-- The line the connect callback logs before dialing. -/
def openedLine (addr : NetAddr) (username : String) (packet : Bool) (reqAddr : String) :
    String :=
  if packet then addr.String ++ " (" ++ username ++ "): [UDP] " ++ reqAddr ++ "\n"
  else addr.String ++ " (" ++ username ++ "): [TCP] " ++ reqAddr ++ "\n"

/-- The line the connect callback logs after a failed dial. -/
def errorLine (packet : Bool) (reqAddr : String) (err : GoError) : String :=
  if packet then "UDP error " ++ reqAddr ++ ": " ++ err.Error ++ "\n"
  else "TCP error " ++ reqAddr ++ ": " ++ err.Error ++ "\n"

/-- The line the request-closed callback logs. -/
def closedLine (addr : NetAddr) (username : String) (packet : Bool) (reqAddr : String)
    (err : GoError) : String :=
  if packet then
    addr.String ++ " (" ++ username ++ "): closed [UDP] " ++ reqAddr ++ ": " ++ err.Error ++ "\n"
  else
    addr.String ++ " (" ++ username ++ "): closed [TCP] " ++ reqAddr ++ ": " ++ err.Error ++ "\n"

/-- The line the admission callback logs. -/
def connectedLine (mbpsToBps : Nat) (addr : NetAddr) (username : String) (sSend sRecv : Nat) :
    String :=
  addr.String ++ " (" ++ username ++ ") connected, negotiated speed (Mbps): Up "
    ++ toString (sSend / mbpsToBps) ++ " / Down " ++ toString (sRecv / mbpsToBps) ++ "\n"

/-! ## Concrete inputs -/

/-- A peer address. -/
def peer : NetAddr := { String := "203.0.113.7:40000" }

/-- The world before anything has happened. -/
def World.empty : World := { trace := [] }

/-- A dialer that refuses every address. -/
def refusingDial : Dialer := fun _ _ =>
  DialReturn.failed { Error := "connection refused" }

/-- A dialer that connects to every address. -/
def connectingDial : Dialer := fun _ _ => DialReturn.connected { fd := 7 }

/-- A dialer that rejects the empty address the way `net.Dial` does and
connects to every other one. -/
def strictDial : Dialer := fun network address =>
  if address = "" then
    DialReturn.failed { Error := "dial " ++ network ++ ": missing address" }
  else DialReturn.connected { fd := 7 }

/-! ## Auxiliary facts -/

theorem log_logPrintf (line : String) (w : World) :
    (logPrintf line w).log = w.log ++ [line] := by
  simp [logPrintf, World.log, List.filterMap_append]

/-- The connect callback, by what the dialer returns on its one call. -/
theorem connectCallback_run (dial : Dialer) (addr : NetAddr) (username : String) (id : Int)
    (packet : Bool) (reqAddr : String) (w : World) :
    connectCallback dial addr username id packet reqAddr w =
      match dial (networkOf packet) reqAddr with
      | DialReturn.failed err =>
        ({ trace := w.trace ++ [Effect.logPrintf (openedLine addr username packet reqAddr),
            Effect.netDial (networkOf packet) reqAddr,
            Effect.logPrintf (errorLine packet reqAddr err)] },
          (ConnectResult.ConnFailed, err.Error, none))
      | DialReturn.connected conn =>
        ({ trace := w.trace ++ [Effect.logPrintf (openedLine addr username packet reqAddr),
            Effect.netDial (networkOf packet) reqAddr] },
          (ConnectResult.ConnSuccess, "", some conn)) := by
  cases packet
  · simp only [connectCallback, netDial, logPrintf, networkOf, openedLine, errorLine]
    rcases h : dial "tcp" reqAddr with c | e <;> simp [h]
  · simp only [connectCallback, netDial, logPrintf, networkOf, openedLine, errorLine]
    rcases h : dial "udp" reqAddr with c | e <;> simp [h]

/-- The resolved configuration, field by field. -/
theorem resolveDefaults_eq (d : Defaults) (q : QuicConfig) :
    resolveDefaults d q =
      { MaxReceiveStreamFlowControlWindow :=
          if q.MaxReceiveStreamFlowControlWindow = 0
          then d.DefaultMaxReceiveStreamFlowControlWindow
          else q.MaxReceiveStreamFlowControlWindow
        MaxReceiveConnectionFlowControlWindow :=
          if q.MaxReceiveConnectionFlowControlWindow = 0
          then d.DefaultMaxReceiveConnectionFlowControlWindow
          else q.MaxReceiveConnectionFlowControlWindow
        MaxIncomingStreams :=
          if q.MaxIncomingStreams = 0 then d.DefaultMaxIncomingStreams
          else q.MaxIncomingStreams
        KeepAlive := q.KeepAlive } := by
  obtain ⟨a, b, c, k⟩ := q
  by_cases ha : a = 0 <;> by_cases hb : b = 0 <;> by_cases hc : c = 0 <;>
    simp [resolveDefaults, resolveIncomingStreams, resolveConnectionWindow,
      resolveStreamWindow, ha, hb, hc]

theorem resolveDefaults_idem (d : Defaults) (q : QuicConfig) :
    resolveDefaults d (resolveDefaults d q) = resolveDefaults d q := by
  rw [resolveDefaults_eq d (resolveDefaults d q), resolveDefaults_eq d q]
  obtain ⟨a, b, c, k⟩ := q
  by_cases ha : a = 0 <;> by_cases hb : b = 0 <;> by_cases hc : c = 0 <;>
    simp [ha, hb, hc]

/-! ## The admission callback -/

/-- C1: for every peer address, username, password and pair of negotiated
rates (and whatever has been logged before), the admission callback returns
`AuthSuccess` together with the empty message; it denies on no input. -/
theorem admission_always_succeeds (mbpsToBps : Nat) (addr : NetAddr)
    (username password : String) (sSend sRecv : Nat) (w : World) :
    (admissionCallback mbpsToBps addr username password sSend sRecv w).2
        = (AuthResult.AuthSuccess, "")
      ∧ (admissionCallback mbpsToBps addr username password sSend sRecv w).2.1
        ≠ AuthResult.AuthDenied := by
  constructor
  · rfl
  · simp [admissionCallback]

/-- C7: every invocation of the admission callback performs exactly one
action, a log line appended to the log; that line carries the peer address and
the username; and the returned decision is the same whatever the log held. -/
theorem admission_logs_one_line (mbpsToBps : Nat) (addr : NetAddr)
    (username password : String) (sSend sRecv : Nat) (w : World) :
    (admissionCallback mbpsToBps addr username password sSend sRecv w).1.trace
        = w.trace ++ [Effect.logPrintf (connectedLine mbpsToBps addr username sSend sRecv)]
      ∧ (admissionCallback mbpsToBps addr username password sSend sRecv w).1.log
        = w.log ++ [connectedLine mbpsToBps addr username sSend sRecv]
      ∧ Carries (connectedLine mbpsToBps addr username sSend sRecv) addr.String
      ∧ Carries (connectedLine mbpsToBps addr username sSend sRecv) username
      ∧ ∀ w0 : World,
          (admissionCallback mbpsToBps addr username password sSend sRecv w0).2
            = (admissionCallback mbpsToBps addr username password sSend sRecv w).2 := by
  refine ⟨rfl, ?_, ?_, ?_, fun _ => rfl⟩
  · exact log_logPrintf _ w
  · refine ⟨[], (" (" ++ username ++ ") connected, negotiated speed (Mbps): Up "
      ++ toString (sSend / mbpsToBps) ++ " / Down " ++ toString (sRecv / mbpsToBps)
      ++ "\n").data, ?_⟩
    simp [connectedLine, String.data_append]
  · refine ⟨(addr.String ++ " (").data, (") connected, negotiated speed (Mbps): Up "
      ++ toString (sSend / mbpsToBps) ++ " / Down " ++ toString (sRecv / mbpsToBps)
      ++ "\n").data, ?_⟩
    simp [connectedLine, String.data_append]

/-! ## The transport limits -/

/-- C6: each of the three limits handed to the core is the configured value
when that is non-zero and the matching default when it is zero; each of the
three resolution steps leaves the other two limits (and keep-alive) as they
were; and resolving an already resolved configuration changes nothing. -/
theorem quicConfig_defaults (d : Defaults) (config : proxyServerConfig) (q : QuicConfig) :
    ((quicConfig d config).MaxReceiveStreamFlowControlWindow
        = if config.ReceiveWindowConn = 0 then d.DefaultMaxReceiveStreamFlowControlWindow
          else config.ReceiveWindowConn)
      ∧ ((quicConfig d config).MaxReceiveConnectionFlowControlWindow
        = if config.ReceiveWindowClient = 0 then d.DefaultMaxReceiveConnectionFlowControlWindow
          else config.ReceiveWindowClient)
      ∧ ((quicConfig d config).MaxIncomingStreams
        = if config.MaxConnClient = 0 then d.DefaultMaxIncomingStreams
          else config.MaxConnClient)
      ∧ ((resolveStreamWindow d q).MaxReceiveConnectionFlowControlWindow
          = q.MaxReceiveConnectionFlowControlWindow
        ∧ (resolveStreamWindow d q).MaxIncomingStreams = q.MaxIncomingStreams
        ∧ (resolveStreamWindow d q).KeepAlive = q.KeepAlive)
      ∧ ((resolveConnectionWindow d q).MaxReceiveStreamFlowControlWindow
          = q.MaxReceiveStreamFlowControlWindow
        ∧ (resolveConnectionWindow d q).MaxIncomingStreams = q.MaxIncomingStreams
        ∧ (resolveConnectionWindow d q).KeepAlive = q.KeepAlive)
      ∧ ((resolveIncomingStreams d q).MaxReceiveStreamFlowControlWindow
          = q.MaxReceiveStreamFlowControlWindow
        ∧ (resolveIncomingStreams d q).MaxReceiveConnectionFlowControlWindow
          = q.MaxReceiveConnectionFlowControlWindow
        ∧ (resolveIncomingStreams d q).KeepAlive = q.KeepAlive)
      ∧ resolveDefaults d (resolveDefaults d q) = resolveDefaults d q
      ∧ resolveDefaults d (quicConfig d config) = quicConfig d config := by
  refine ⟨?_, ?_, ?_, ?_, ?_, ?_, resolveDefaults_idem d q, resolveDefaults_idem d _⟩
  · simp [quicConfig, resolveDefaults_eq, initQuicConfig]
  · simp [quicConfig, resolveDefaults_eq, initQuicConfig]
  · simp [quicConfig, resolveDefaults_eq, initQuicConfig]
  · unfold resolveStreamWindow
    split <;> simp
  · unfold resolveConnectionWindow
    split <;> simp
  · unfold resolveIncomingStreams
    split <;> simp

/-! ## The connect callback -/

/-- C2: for every request and every outcome `r` the dial returns, the connect
callback returns (`ConnSuccess`, empty message, the dialed handle) exactly when
the dial succeeded, and (`ConnFailed`, the error text, no handle) when it
failed; it never returns `ConnSuccess` without a handle nor `ConnFailed` with
one. -/
theorem connect_result_follows_dial (dial : Dialer) (addr : NetAddr) (username : String)
    (id : Int) (packet : Bool) (reqAddr : String) (w : World) (r : DialReturn)
    (h : dial (networkOf packet) reqAddr = r) :
    (∀ conn : NetConn,
        (connectCallback dial addr username id packet reqAddr w).2
            = (ConnectResult.ConnSuccess, "", some conn)
          ↔ r = DialReturn.connected conn)
      ∧ (∀ err : GoError,
        (connectCallback dial addr username id packet reqAddr w).2
            = (ConnectResult.ConnFailed, err.Error, none)
          ↔ r = DialReturn.failed err)
      ∧ (∀ msg : String,
        (connectCallback dial addr username id packet reqAddr w).2
          ≠ (ConnectResult.ConnSuccess, msg, none))
      ∧ (∀ (msg : String) (conn : NetConn),
        (connectCallback dial addr username id packet reqAddr w).2
          ≠ (ConnectResult.ConnFailed, msg, some conn)) := by
  rw [connectCallback_run, h]
  cases r with
  | connected c => simp
  | failed e =>
    refine ⟨by simp, ?_, by simp, by simp⟩
    intro err
    constructor
    · intro h1
      have h2 : e.Error = err.Error := by simpa using h1
      cases e
      cases err
      simp_all
    · intro h1
      cases h1
      rfl

/-- C2, at a concrete request: a refused TCP dial. -/
theorem connect_result_follows_dial_witness :
    refusingDial (networkOf false) "192.0.2.1:80"
        = DialReturn.failed { Error := "connection refused" }
      ∧ ((∀ conn : NetConn,
          (connectCallback refusingDial peer "alice" 3 false "192.0.2.1:80" World.empty).2
              = (ConnectResult.ConnSuccess, "", some conn)
            ↔ DialReturn.failed { Error := "connection refused" } = DialReturn.connected conn)
        ∧ (∀ err : GoError,
          (connectCallback refusingDial peer "alice" 3 false "192.0.2.1:80" World.empty).2
              = (ConnectResult.ConnFailed, err.Error, none)
            ↔ DialReturn.failed { Error := "connection refused" } = DialReturn.failed err)
        ∧ (∀ msg : String,
          (connectCallback refusingDial peer "alice" 3 false "192.0.2.1:80" World.empty).2
            ≠ (ConnectResult.ConnSuccess, msg, none))
        ∧ (∀ (msg : String) (conn : NetConn),
          (connectCallback refusingDial peer "alice" 3 false "192.0.2.1:80" World.empty).2
            ≠ (ConnectResult.ConnFailed, msg, some conn))) :=
  ⟨rfl, connect_result_follows_dial refusingDial peer "alice" 3 false "192.0.2.1:80"
    World.empty (DialReturn.failed { Error := "connection refused" }) rfl⟩

/-- C3: every invocation of the connect callback makes exactly one dial call,
on network `tcp` when the packet flag is false and `udp` when it is true, with
the requested address unchanged, whatever that address is. -/
theorem connect_dials_once (dial : Dialer) (addr : NetAddr) (username : String)
    (id : Int) (reqAddr : String) (w : World) :
    (connectCallback dial addr username id false reqAddr w).1.dialCalls
        = w.dialCalls ++ [("tcp", reqAddr)]
      ∧ (connectCallback dial addr username id true reqAddr w).1.dialCalls
        = w.dialCalls ++ [("udp", reqAddr)] := by
  constructor
  · rw [connectCallback_run]
    rcases dial (networkOf false) reqAddr with c | e <;>
      simp [World.dialCalls, List.filterMap_append, networkOf]
  · rw [connectCallback_run]
    rcases dial (networkOf true) reqAddr with c | e <;>
      simp [World.dialCalls, List.filterMap_append, networkOf]

/-- C4 as stated fails: on the empty destination address the connect callback
does invoke the dialer, and the message it returns is the error text of the
dialer. -/
theorem connect_empty_address_is_dialed :
    (connectCallback strictDial peer "alice" 3 false "" World.empty).1.dialCalls
        = [("tcp", "")]
      ∧ (connectCallback strictDial peer "alice" 3 false "" World.empty).1.dialCalls ≠ []
      ∧ (connectCallback strictDial peer "alice" 3 false "" World.empty).2
        = (ConnectResult.ConnFailed, "dial tcp: missing address", none) := by
  decide

/-- C4, amended: the connect callback does not examine the destination
address, be it empty or malformed; it passes the string unchanged to the
dialer, once, and when the dialer rejects it the callback returns `ConnFailed`
with the error text of the dialer and no handle. -/
theorem connect_rejection_comes_from_dialer (dial : Dialer) (addr : NetAddr)
    (username : String) (id : Int) (packet : Bool) (reqAddr : String) (w : World)
    (err : GoError) (h : dial (networkOf packet) reqAddr = DialReturn.failed err) :
    (connectCallback dial addr username id packet reqAddr w).1.dialCalls
        = w.dialCalls ++ [(networkOf packet, reqAddr)]
      ∧ (connectCallback dial addr username id packet reqAddr w).2
        = (ConnectResult.ConnFailed, err.Error, none) := by
  rw [connectCallback_run, h]
  simp [World.dialCalls, List.filterMap_append]

/-- C4, amended, at the empty destination address. -/
theorem connect_rejection_comes_from_dialer_witness :
    strictDial (networkOf true) ""
        = DialReturn.failed { Error := "dial udp: missing address" }
      ∧ (connectCallback strictDial peer "alice" 3 true "" World.empty).1.dialCalls
        = World.empty.dialCalls ++ [(networkOf true, "")]
      ∧ (connectCallback strictDial peer "alice" 3 true "" World.empty).2
        = (ConnectResult.ConnFailed,
            GoError.Error { Error := "dial udp: missing address" }, none) :=
  ⟨by decide, connect_rejection_comes_from_dialer strictDial peer "alice" 3 true ""
    World.empty { Error := "dial udp: missing address" } (by decide)⟩

/-- C8: for every request, the connect callback first logs exactly one opened
line (carrying peer address, username, kind label and destination), then
dials, and then either returns `ConnSuccess` having logged nothing more, or
returns `ConnFailed` having logged exactly one more line, an error line that
carries the destination address and the dial error text. -/
theorem connect_reports (dial : Dialer) (addr : NetAddr) (username : String)
    (id : Int) (packet : Bool) (reqAddr : String) (w : World) :
    ((∃ conn : NetConn, dial (networkOf packet) reqAddr = DialReturn.connected conn
          ∧ (connectCallback dial addr username id packet reqAddr w).2
            = (ConnectResult.ConnSuccess, "", some conn)
          ∧ (connectCallback dial addr username id packet reqAddr w).1.trace
            = w.trace ++ [Effect.logPrintf (openedLine addr username packet reqAddr),
                Effect.netDial (networkOf packet) reqAddr]
          ∧ (connectCallback dial addr username id packet reqAddr w).1.log
            = w.log ++ [openedLine addr username packet reqAddr])
        ∨ (∃ err : GoError, dial (networkOf packet) reqAddr = DialReturn.failed err
          ∧ (connectCallback dial addr username id packet reqAddr w).2
            = (ConnectResult.ConnFailed, err.Error, none)
          ∧ (connectCallback dial addr username id packet reqAddr w).1.trace
            = w.trace ++ [Effect.logPrintf (openedLine addr username packet reqAddr),
                Effect.netDial (networkOf packet) reqAddr,
                Effect.logPrintf (errorLine packet reqAddr err)]
          ∧ (connectCallback dial addr username id packet reqAddr w).1.log
            = w.log ++ [openedLine addr username packet reqAddr, errorLine packet reqAddr err]
          ∧ Carries (errorLine packet reqAddr err) (errorLabel packet)
          ∧ Carries (errorLine packet reqAddr err) reqAddr
          ∧ Carries (errorLine packet reqAddr err) err.Error))
      ∧ Carries (openedLine addr username packet reqAddr) addr.String
      ∧ Carries (openedLine addr username packet reqAddr) username
      ∧ Carries (openedLine addr username packet reqAddr) (kindLabel packet)
      ∧ Carries (openedLine addr username packet reqAddr) reqAddr := by
  have e1 : "): [TCP] " = "): " ++ "[TCP]" ++ " " := by decide
  have e2 : "): [UDP] " = "): " ++ "[UDP]" ++ " " := by decide
  refine ⟨?_, ?_, ?_, ?_, ?_⟩
  · rw [connectCallback_run]
    rcases h : dial (networkOf packet) reqAddr with c | e
    · left
      exact ⟨c, rfl, rfl, rfl, by simp [World.log, List.filterMap_append]⟩
    · right
      refine ⟨e, rfl, rfl, rfl, by simp [World.log, List.filterMap_append], ?_, ?_, ?_⟩
      · refine ⟨[], (reqAddr ++ ": " ++ e.Error ++ "\n").data, ?_⟩
        cases packet <;> simp [errorLine, errorLabel, String.data_append]
      · refine ⟨(errorLabel packet).data, (": " ++ e.Error ++ "\n").data, ?_⟩
        cases packet <;> simp [errorLine, errorLabel, String.data_append]
      · refine ⟨(errorLabel packet ++ reqAddr ++ ": ").data, ("\n" : String).data, ?_⟩
        cases packet <;> simp [errorLine, errorLabel, String.data_append]
  · refine ⟨[], (" (" ++ username ++ "): " ++ kindLabel packet ++ " " ++ reqAddr ++ "\n").data, ?_⟩
    cases packet <;> simp [openedLine, kindLabel, String.data_append, e1, e2]
  · refine ⟨(addr.String ++ " (").data,
      ("): " ++ kindLabel packet ++ " " ++ reqAddr ++ "\n").data, ?_⟩
    cases packet <;> simp [openedLine, kindLabel, String.data_append, e1, e2]
  · refine ⟨(addr.String ++ " (" ++ username ++ "): ").data, (" " ++ reqAddr ++ "\n").data, ?_⟩
    cases packet <;> simp [openedLine, kindLabel, String.data_append, e1, e2]
  · refine ⟨(addr.String ++ " (" ++ username ++ "): " ++ kindLabel packet ++ " ").data,
      ("\n" : String).data, ?_⟩
    cases packet <;> simp [openedLine, kindLabel, String.data_append, e1, e2]

/-- C9: what the connect callback returns for a request is determined by the
kind flag, the destination address and what the dial does there.  Two
invocations that agree on these return the same, whatever the peer address,
username, sub-channel id and earlier history are; in particular an invocation
run after any other invocation, failed or not, returns what it returns when
run alone. -/
theorem connect_result_is_local (dialA dialB : Dialer) (addrA addrB : NetAddr)
    (usernameA usernameB : String) (idA idB : Int) (packet : Bool) (reqAddr : String)
    (wA wB : World) (h : dialA (networkOf packet) reqAddr = dialB (networkOf packet) reqAddr) :
    (connectCallback dialA addrA usernameA idA packet reqAddr wA).2
        = (connectCallback dialB addrB usernameB idB packet reqAddr wB).2
      ∧ ∀ (packet0 : Bool) (reqAddr0 : String),
          (connectCallback dialB addrB usernameB idB packet reqAddr
              (connectCallback dialB addrA usernameA idA packet0 reqAddr0 wB).1).2
            = (connectCallback dialB addrB usernameB idB packet reqAddr wB).2 := by
  constructor
  · rw [connectCallback_run, connectCallback_run, h]
    rcases dialB (networkOf packet) reqAddr with c | e <;> rfl
  · intro packet0 reqAddr0
    rw [connectCallback_run dialB addrB usernameB idB packet reqAddr,
      connectCallback_run dialB addrB usernameB idB packet reqAddr]
    rcases dialB (networkOf packet) reqAddr with c | e <;> rfl

/-- C9, at a concrete pair of runs: the same reachable destination, once
after a refused dial of another peer and once alone. -/
theorem connect_result_is_local_witness :
    strictDial (networkOf false) "example.com:80"
        = connectingDial (networkOf false) "example.com:80"
      ∧ (connectCallback strictDial { String := "198.51.100.9:1234" } "bob" 8 false
        "example.com:80"
        (connectCallback strictDial peer "alice" 3 false "" World.empty).1).2
        = (connectCallback connectingDial peer "alice" 5 false "example.com:80" World.empty).2
      ∧ ∀ (packet0 : Bool) (reqAddr0 : String),
          (connectCallback connectingDial peer "alice" 5 false "example.com:80"
              (connectCallback connectingDial { String := "198.51.100.9:1234" } "bob" 8
                packet0 reqAddr0 World.empty).1).2
            = (connectCallback connectingDial peer "alice" 5 false "example.com:80"
                World.empty).2 :=
  ⟨by decide,
    connect_result_is_local strictDial connectingDial { String := "198.51.100.9:1234" } peer
      "bob" "alice" 8 5 false "example.com:80"
      (connectCallback strictDial peer "alice" 3 false "" World.empty).1 World.empty
      (by decide)⟩

/-! ## The request-closed callback -/

/-- C5 as stated fails: on a close notification whose error is nil the
request-closed callback does not complete; it panics before any line is
logged. -/
theorem requestClosed_nil_error_panics :
    (requestClosedCallback peer "alice" 3 false "example.com:80" none World.empty).2
        = Except.error GoPanic.nilDereference
      ∧ (requestClosedCallback peer "alice" 3 false "example.com:80" none World.empty).2
        ≠ Except.ok ()
      ∧ (requestClosedCallback peer "alice" 3 false "example.com:80" none World.empty).1.log
        = [] := by
  refine ⟨rfl, ?_, rfl⟩
  simp [requestClosedCallback]

/-- C5, amended: for every close notification whose error is not nil, the
request-closed callback completes without failing and performs exactly one
action, a log line that carries the peer address, the username, the kind
label (`[TCP]` when the packet flag is false, `[UDP]` when it is true), the
destination address and the text of the error. -/
theorem requestClosed_reports_once (addr : NetAddr) (username : String) (id : Int)
    (packet : Bool) (reqAddr : String) (err : GoError) (w : World) :
    (requestClosedCallback addr username id packet reqAddr (some err) w).2 = Except.ok ()
      ∧ (requestClosedCallback addr username id packet reqAddr (some err) w).1.trace
        = w.trace ++ [Effect.logPrintf (closedLine addr username packet reqAddr err)]
      ∧ (requestClosedCallback addr username id packet reqAddr (some err) w).1.log
        = w.log ++ [closedLine addr username packet reqAddr err]
      ∧ Carries (closedLine addr username packet reqAddr err) addr.String
      ∧ Carries (closedLine addr username packet reqAddr err) username
      ∧ Carries (closedLine addr username packet reqAddr err) (kindLabel packet)
      ∧ Carries (closedLine addr username packet reqAddr err) reqAddr
      ∧ Carries (closedLine addr username packet reqAddr err) err.Error
      ∧ kindLabel false = "[TCP]" ∧ kindLabel true = "[UDP]" := by
  have e1 : "): closed [TCP] " = "): closed " ++ "[TCP]" ++ " " := by decide
  have e2 : "): closed [UDP] " = "): closed " ++ "[UDP]" ++ " " := by decide
  refine ⟨?_, ?_, ?_, ?_, ?_, ?_, ?_, ?_, rfl, rfl⟩
  · cases packet <;> rfl
  · cases packet <;> rfl
  · cases packet <;>
      simp [requestClosedCallback, closedLine, logPrintf, World.log, List.filterMap_append]
  · refine ⟨[], (" (" ++ username ++ "): closed " ++ kindLabel packet ++ " " ++ reqAddr ++ ": "
      ++ err.Error ++ "\n").data, ?_⟩
    cases packet <;> simp [closedLine, kindLabel, String.data_append, e1, e2]
  · refine ⟨(addr.String ++ " (").data, ("): closed " ++ kindLabel packet ++ " " ++ reqAddr
      ++ ": " ++ err.Error ++ "\n").data, ?_⟩
    cases packet <;> simp [closedLine, kindLabel, String.data_append, e1, e2]
  · refine ⟨(addr.String ++ " (" ++ username ++ "): closed ").data,
      (" " ++ reqAddr ++ ": " ++ err.Error ++ "\n").data, ?_⟩
    cases packet <;> simp [closedLine, kindLabel, String.data_append, e1, e2]
  · refine ⟨(addr.String ++ " (" ++ username ++ "): closed " ++ kindLabel packet ++ " ").data,
      (": " ++ err.Error ++ "\n").data, ?_⟩
    cases packet <;> simp [closedLine, kindLabel, String.data_append, e1, e2]
  · refine ⟨(addr.String ++ " (" ++ username ++ "): closed " ++ kindLabel packet ++ " "
      ++ reqAddr ++ ": ").data, ("\n" : String).data, ?_⟩
    cases packet <;> simp [closedLine, kindLabel, String.data_append, e1, e2]

end Hysteria
